import Mathlib

/-!
Verification of the MCP connection-check core of this repository.

The embedding covers:
* `app/lib/services/mcp.ts` — `createMCPClient` (spec validation, transport
  selection, connection, verification probe), `createMCPClients` (sequential
  aggregation with last-writer-wins `Object.assign`), `closeMCPClients`
  (bulk close that swallows per-client close failures);
* `app/routes/api.mcp-check.ts` — the `action` handler: top-level input
  validation, the per-server check unit (status / errors / tools records,
  close call), and the aggregated response.

External effects (transport connection, the `tools()` round trips, `close()`)
are modelled by a `ServerWorld` oracle giving the result of each call; the
k-th `tools()` call on a server's client reads `toolsRes k`.  JavaScript
truthiness of optional string fields (absent or empty string is falsy) is
modelled by `truthyStr`.  Error values thrown by the environment are carried
as their message strings, matching the `errorToString` helper of the source.
-/

namespace MCP

/-- A tool mapping (JS object): association list of tool name to an opaque
descriptor payload.  `Object.assign` appends and lookup takes the last
binding, reproducing overwrite semantics. -/
abbrev ToolSet := List (String × String)

/-- JS truthiness of an optional string field: `undefined` and the empty
string are falsy. -/
def truthyStr : Option String → Bool
  | none => false
  | some s => !s.isEmpty

/-- The duck-typed `ServerConfig` shape of `mcp.ts` (all fields optional). -/
structure ServerConfig where
  command : Option String := none
  args : Option (List String) := none
  url : Option String := none
  env : Option (List (String × String)) := none
  type : Option String := none
  cwd : Option String := none
deriving DecidableEq

/-- Transport-kind test, line 45 of `mcp.ts`:
`serverConfig.type === 'sse' || (!serverConfig.command && serverConfig.url)`. -/
def isSSE (c : ServerConfig) : Bool :=
  c.type == some "sse" || (!truthyStr c.command && truthyStr c.url)

/-- Oracle for one server's external effects: the transport-connection
result, the result of the k-th `tools()` call on the created client, and
the result of `close()`. -/
structure ServerWorld where
  connectRes : Except String Unit
  toolsRes : Nat → Except String ToolSet
  closeRes : Except String Unit

/-- A created MCP client handle; `nextToolsCall` is the index of the next
`tools()` call that will be issued on it. -/
structure Client where
  nextToolsCall : Nat
deriving DecidableEq

/-- Lines 40-57 of `mcp.ts`: null-config check, transport-kind selection,
kind-specific required-field validation, then transport creation via
`createSSEClient` / `createStdioClient` (which wrap a connection failure in
their respective messages).  Produces the client object or the thrown
error message. -/
def connectClient (serverName : String) (serverConfig : Option ServerConfig)
    (w : ServerWorld) : Except String Client :=
  match serverConfig with
  | none => .error ("Invalid configuration for server \"" ++ serverName ++ "\"")
  | some c =>
    if isSSE c && !truthyStr c.url then
      .error ("Missing URL for SSE server \"" ++ serverName ++ "\"")
    else if !isSSE c && !truthyStr c.command then
      .error ("Missing command for stdio server \"" ++ serverName ++ "\"")
    else
      match w.connectRes with
      | .ok _ => .ok { nextToolsCall := 0 }
      | .error e =>
        if isSSE c then
          .error ("Failed to connect to SSE endpoint \"" ++ c.url.getD "" ++ "\": " ++ e)
        else
          .error ("Failed to start command \"" ++ c.command.getD "" ++ "\": " ++ e)

/-- Lines 40-66 of `mcp.ts`, `createMCPClient`: connect (see
`connectClient`), then the verification probe `await client.tools()`; a
probe failure is rethrown wrapped (and the client is not closed).  The
declared TS return type is `MCPClient | null`, hence the `Option` in the
success payload. -/
def createMCPClient (serverName : String) (serverConfig : Option ServerConfig)
    (w : ServerWorld) : Except String (Option Client) :=
  match connectClient serverName serverConfig w with
  | .error e => .error e
  | .ok c =>
    match w.toolsRes c.nextToolsCall with
    | .error e =>
      .error ("Server connection established but failed to get available tools: " ++ e)
    | .ok _ => .ok (some { c with nextToolsCall := c.nextToolsCall + 1 })

/-- Number of client objects brought into existence by a `createMCPClient`
call: one exactly when transport creation (lines 55-57) succeeded,
regardless of whether the verification probe then failed. -/
def createdClients (serverName : String) (serverConfig : Option ServerConfig)
    (w : ServerWorld) : Nat :=
  match connectClient serverName serverConfig w with
  | .ok _ => 1
  | .error _ => 0

/-- Outcome of one per-server check unit of `api.mcp-check.ts`: the final
values of `serverStatus[name]`, `serverErrors[name]`, `serverTools[name]`,
plus bookkeeping for resource accounting: how many clients the unit created
and how many `close()` calls it issued. -/
structure UnitResult where
  status : Bool
  error : Option String
  tools : Option ToolSet
  created : Nat
  closed : Nat
deriving DecidableEq

/-- Lines 21-48 of `api.mcp-check.ts`: one per-server unit.  On a client,
`serverStatus` is set to true, the route calls `tools()` again (the second
call on this client), recording tools or a wrapped error, then
`await client.close()`; a throw from `close()` reaches the outer catch,
which overwrites the status to false and the error entry with the close
error.  Any throw from `createMCPClient` is recorded as status false with
its message. -/
def checkServer (serverName : String) (serverConfig : Option ServerConfig)
    (w : ServerWorld) : UnitResult :=
  match createMCPClient serverName serverConfig w with
  | .ok (some c) =>
    match w.toolsRes c.nextToolsCall with
    | .ok ts =>
      match w.closeRes with
      | .ok _ =>
        { status := true, error := none, tools := some ts,
          created := createdClients serverName serverConfig w, closed := 1 }
      | .error ce =>
        { status := false, error := some ce, tools := some ts,
          created := createdClients serverName serverConfig w, closed := 1 }
    | .error te =>
      match w.closeRes with
      | .ok _ =>
        { status := true, error := some ("Connected but failed to get tools: " ++ te),
          tools := none,
          created := createdClients serverName serverConfig w, closed := 1 }
      | .error ce =>
        { status := false, error := some ce, tools := none,
          created := createdClients serverName serverConfig w, closed := 1 }
  | .ok none =>
    { status := false, error := some "Failed to create client", tools := none,
      created := createdClients serverName serverConfig w, closed := 0 }
  | .error e =>
    { status := false, error := some e, tools := none,
      created := createdClients serverName serverConfig w, closed := 0 }

/-- Shape of the parsed `mcpServers` field of the request body: the body
failed to parse as JSON at all, the field is absent (or another falsy
value such as `null`), present but not an object, or an object mapping
server names to configurations. -/
inductive MCPField where
  | parseFail : MCPField
  | absent : MCPField
  | nonObject : MCPField
  | obj : List (String × Option ServerConfig) → MCPField

/-- The three record fields of a successful check response. -/
structure ActionOk where
  serverStatus : List (String × Bool)
  serverErrors : List (String × String)
  serverTools : List (String × ToolSet)
deriving DecidableEq

/-- Result of the `action` handler: a 2xx aggregated response or an error
response with its HTTP status code. -/
inductive ActionResult where
  | ok : ActionOk → ActionResult
  | err : Nat → ActionResult
deriving DecidableEq

/-- Lines 7-58 of `api.mcp-check.ts`: a JSON parse failure reaches the
outer catch (500); a falsy or non-object `mcpServers` returns 400; else
every entry runs its check unit and the three records are assembled (each
unit writes only its own key; aggregation is in input key order). -/
def action (field : MCPField) (w : String → ServerWorld) : ActionResult :=
  match field with
  | .parseFail => .err 500
  | .absent => .err 400
  | .nonObject => .err 400
  | .obj servers =>
    let results := servers.map fun p => (p.1, checkServer p.1 p.2 (w p.1))
    .ok { serverStatus := results.map fun p => (p.1, p.2.status),
          serverErrors := results.filterMap fun p => p.2.error.map fun e => (p.1, e),
          serverTools := results.filterMap fun p => p.2.tools.map fun t => (p.1, t) }

/-- `Object.assign(tools, toolSet)`: overlay appended; `objLookup` makes the
last binding win. -/
def objAssign (base overlay : ToolSet) : ToolSet := base ++ overlay

/-- Value of a key in a JS-object-as-list: the most recently assigned
binding. -/
def objLookup (m : ToolSet) (k : String) : Option String := m.reverse.lookup k

/-- Lines 99-127 of `mcp.ts`, `createMCPClients`: returns `{tools, clients}`
given the optional `mcpServers` mapping.  Sequential loop; a per-server
failure (creation or the second `tools()` call) is caught and the loop
continues; a created client is pushed before its `tools()` call, so it
stays in `clients` even if that call fails. -/
def createMCPClients (mcpServers : Option (List (String × Option ServerConfig)))
    (w : String → ServerWorld) : ToolSet × List String :=
  match mcpServers with
  | none => ([], [])
  | some servers =>
    servers.foldl
      (fun acc p =>
        match createMCPClient p.1 p.2 (w p.1) with
        | .error _ => acc
        | .ok none => acc
        | .ok (some c) =>
          match (w p.1).toolsRes c.nextToolsCall with
          | .error _ => (acc.1, acc.2 ++ [p.1])
          | .ok ts => (objAssign acc.1 ts, acc.2 ++ [p.1]))
      ([], [])

/-- Line 131 of `mcp.ts`: `client.close().catch(e => logger.error(...))` —
an individual close failure is swallowed and the promise resolves. -/
def closeOne (r : Except String Unit) : Except String Unit :=
  match r with
  | .ok _ => .ok ()
  | .error _ => .ok ()

/-- Lines 129-135 of `mcp.ts`, `closeMCPClients`: every client's close is
attempted (each wrapped by `closeOne`) and the results are awaited with
`Promise.allSettled`, which never rejects; the returned number counts the
close attempts made. -/
def closeMCPClients (closeResults : List (Except String Unit)) : Except String Nat :=
  .ok (closeResults.map closeOne).length

/-! Concrete configurations and worlds used as test inputs below. -/

/-- A valid subprocess configuration. -/
def cfgStdio : ServerConfig := { command := some "mcp-server-git" }

/-- A configuration with no command, no url and no type (invalid). -/
def cfgEmpty : ServerConfig := {}

/-- A world where connection succeeds but every `tools()` call fails. -/
def wProbeFail : ServerWorld :=
  { connectRes := .ok (), toolsRes := fun _ => .error "probe down", closeRes := .ok () }

/-- A world where everything succeeds. -/
def wGood : ServerWorld :=
  { connectRes := .ok (), toolsRes := fun _ => .ok [("log", "d")], closeRes := .ok () }

/-- A world where connection and both probes succeed but `close()` fails
with an empty error message. -/
def wCloseFail : ServerWorld :=
  { connectRes := .ok (), toolsRes := fun _ => .ok [("log", "d")], closeRes := .error "" }

/-- A world where connection and both probes succeed but `close()` fails
with message "close boom". -/
def wCloseBoom : ServerWorld :=
  { connectRes := .ok (), toolsRes := fun _ => .ok [("log", "d")], closeRes := .error "close boom" }

/-- A world where the first (verification) `tools()` call succeeds and every
later one fails. -/
def wSecondProbeFail : ServerWorld :=
  { connectRes := .ok (),
    toolsRes := fun k => if k = 0 then .ok [("log", "d")] else .error "late fail",
    closeRes := .ok () }

/-! Helper lemmas. -/

/-- A key found in the first list is found in the appended list. -/
theorem lookup_append_of_some {l1 l2 : List (String × String)} {k : String} {v : String}
    (h : l1.lookup k = some v) : (l1 ++ l2).lookup k = some v := by
  induction l1 with
  | nil => simp [List.lookup] at h
  | cons hd tl ih =>
    rcases hd with ⟨k0, v0⟩
    by_cases hk : k == k0
    · simp [List.lookup, hk] at h ⊢
      exact h
    · simp only [Bool.not_eq_true] at hk
      simp [List.lookup, hk] at h ⊢
      exact ih h

/-- A successfully connected client starts with its tools-call counter at 0. -/
theorem connectClient_ok_zero (n : String) (cfg : Option ServerConfig) (w : ServerWorld)
    (cl : Client) (h : connectClient n cfg w = .ok cl) : cl = { nextToolsCall := 0 } := by
  unfold connectClient at h
  split at h
  · simp at h
  · split at h
    · simp at h
    · split at h
      · simp at h
      · split at h
        · injection h with h2
          exact h2.symm
        · split at h <;> simp at h

/-- If `createMCPClient` succeeds then the transport connection succeeded,
i.e. a client object was created. -/
theorem createMCPClient_ok_connect (n : String) (cfg : Option ServerConfig) (w : ServerWorld)
    (oc : Option Client) (h : createMCPClient n cfg w = .ok oc) :
    ∃ cl, connectClient n cfg w = .ok cl := by
  unfold createMCPClient at h
  cases hc : connectClient n cfg w with
  | error e => rw [hc] at h; simp at h
  | ok cl => exact ⟨cl, rfl⟩

/-! Claim theorems. -/

/-- Claim C1 — the check operation returns a top-level (non-2xx) error exactly
when the mcpServers input mapping cannot be interpreted (body unparseable,
field absent/falsy, or not an object); for every object-shaped mcpServers
input it returns a normal aggregated result in which every per-server problem
is recorded only in that server's status / error entries, so no per-server
failure aborts the whole call. -/
theorem check_top_level_error_iff_uninterpretable (field : MCPField)
    (w : String → ServerWorld) :
    (∃ code, action field w = .err code) ↔ ∀ servers, field ≠ .obj servers := by
  cases field with
  | parseFail => simp [action]
  | absent => simp [action]
  | nonObject => simp [action]
  | obj servers =>
    simp only [action]
    constructor
    · rintro ⟨code, hcode⟩
      simp at hcode
    · intro hall
      exact absurd rfl (hall servers)

/-- Claim C6 — for every object-shaped input with N server entries, the check
response's serverStatus record has exactly one boolean entry per input server
name, in input order, no more and no fewer, regardless of outcomes. -/
theorem check_one_status_entry_per_server (servers : List (String × Option ServerConfig))
    (w : String → ServerWorld) :
    ∃ r, action (.obj servers) w = .ok r ∧
      r.serverStatus.map Prod.fst = servers.map Prod.fst ∧
      r.serverStatus.length = servers.length := by
  refine ⟨_, rfl, ?_, ?_⟩ <;> simp [action]

/-- Claim C10 — `createMCPClient` never returns a null client: it either
throws or returns a real client, so the check unit's branch recording
"Failed to create client" for a null client can never be taken. -/
theorem createMCPClient_never_null (n : String) (cfg : Option ServerConfig)
    (w : ServerWorld) : createMCPClient n cfg w ≠ .ok none := by
  unfold createMCPClient
  intro h
  split at h
  · simp at h
  · split at h <;> simp at h

/-- Claim C2 counterexample — a server whose transport connection succeeds
(a client is created) but whose capability probe fails is recorded with
serverStatus false, not true: the verification probe failure inside
`createMCPClient` is rethrown and lands in the unit's outer catch. -/
theorem probe_failure_marked_unreachable :
    (checkServer "git" (some cfgStdio) wProbeFail).created = 1 ∧
    (checkServer "git" (some cfgStdio) wProbeFail).status = false ∧
    (checkServer "git" (some cfgStdio) wProbeFail).error =
      some "Server connection established but failed to get available tools: probe down" ∧
    (checkServer "git" (some cfgStdio) wProbeFail).tools = none := by
  refine ⟨rfl, rfl, rfl, rfl⟩

/-- Claim C2 amended — only when the verification probe succeeds and the
check unit's own subsequent tools retrieval fails (with close succeeding)
does the outcome have serverStatus true together with an error entry
"Connected but failed to get tools: <error>" and no serverTools entry; a
failure of the verification probe itself yields serverStatus false. -/
theorem reachable_with_error_on_second_probe_failure (n : String) (c : ServerConfig)
    (w : ServerWorld) (ts0 : ToolSet) (e : String)
    (h0 : w.toolsRes 0 = .ok ts0) (h1 : w.toolsRes 1 = .error e)
    (hcreate : createdClients n (some c) w = 1) (hcl : w.closeRes = .ok ()) :
    checkServer n (some c) w =
      { status := true, error := some ("Connected but failed to get tools: " ++ e),
        tools := none, created := 1, closed := 1 } := by
  unfold createdClients at hcreate
  cases hc : connectClient n (some c) w with
  | error e2 => rw [hc] at hcreate; simp at hcreate
  | ok cl =>
    have hz := connectClient_ok_zero n (some c) w cl hc
    subst hz
    have hcm : createMCPClient n (some c) w = .ok (some { nextToolsCall := 1 }) := by
      simp [createMCPClient, hc, h0]
    simp [checkServer, hcm, h1, hcl, createdClients, hc]

/-- Claim C2 witness — the amended statement at a concrete input: first probe
succeeds, second fails with "late fail". -/
theorem reachable_with_error_on_second_probe_failure_witness :
    checkServer "git" (some cfgStdio) wSecondProbeFail =
      { status := true, error := some ("Connected but failed to get tools: " ++ "late fail"),
        tools := none, created := 1, closed := 1 } :=
  reachable_with_error_on_second_probe_failure "git" cfgStdio wSecondProbeFail
    [("log", "d")] "late fail" rfl rfl rfl rfl

/-- Claim C3 — failing input for the close-every-client guarantee: when the
connection succeeds and the verification probe fails, a client is created
(created = 1) yet the unit returns without any close call (closed = 0): the
client leaks, contradicting the claim that every successfully created
connection is closed exactly once, including on the probe-failure path. -/
theorem probe_failure_leaks_client :
    (checkServer "git" (some cfgStdio) wProbeFail).created = 1 ∧
    (checkServer "git" (some cfgStdio) wProbeFail).closed = 0 := ⟨rfl, rfl⟩

/-- Claim C4 — last-writer-wins aggregation: when servers A (iterated first)
and B (iterated second) both succeed and both declare a tool named "x", the
flattened tool mapping of `createMCPClients` maps "x" to B's descriptor,
silently overwriting A's. -/
theorem aggregation_last_writer_wins (ca cb : ServerConfig) (w : String → ServerWorld)
    (tsA tsB : ToolSet) (dA dB : String)
    (hA : createMCPClient "A" (some ca) (w "A") = .ok (some { nextToolsCall := 1 }))
    (hA1 : (w "A").toolsRes 1 = .ok tsA)
    (hB : createMCPClient "B" (some cb) (w "B") = .ok (some { nextToolsCall := 1 }))
    (hB1 : (w "B").toolsRes 1 = .ok tsB)
    (hxA : objLookup tsA "x" = some dA) (hxB : objLookup tsB "x" = some dB) :
    objLookup (createMCPClients (some [("A", some ca), ("B", some cb)]) w).1 "x" = some dB := by
  have hres : (createMCPClients (some [("A", some ca), ("B", some cb)]) w).1 =
      objAssign (objAssign [] tsA) tsB := by
    simp [createMCPClients, hA, hA1, hB, hB1]
  rw [hres]
  unfold objLookup objAssign at *
  rw [List.nil_append, List.reverse_append]
  exact lookup_append_of_some hxB

/-- Claim C4 witness — the collision scenario at concrete inputs: both
servers declare "x", the aggregate holds B's descriptor "dB". -/
theorem aggregation_last_writer_wins_witness :
    objLookup (createMCPClients (some [("A", some cfgStdio), ("B", some cfgStdio)])
      (fun n => if n = "A"
        then { connectRes := .ok (), toolsRes := fun _ => .ok [("x", "dA"), ("y", "dy")],
               closeRes := .ok () }
        else { connectRes := .ok (), toolsRes := fun _ => .ok [("x", "dB")],
               closeRes := .ok () })).1 "x" = some "dB" :=
  aggregation_last_writer_wins cfgStdio cfgStdio _
    [("x", "dA"), ("y", "dy")] [("x", "dB")] "dA" "dB" rfl rfl rfl rfl rfl rfl

/-- Claim C5 counterexample — an outcome with serverStatus false whose
serverTools entry is present (the close step failed after tools were
captured) and whose error entry is the empty close-error message: the
claim's "empty tool set and non-empty errorDetail" fails at this input. -/
theorem unreachable_outcome_with_tools :
    (checkServer "git" (some cfgStdio) wCloseFail).status = false ∧
    (checkServer "git" (some cfgStdio) wCloseFail).tools = some [("log", "d")] ∧
    (checkServer "git" (some cfgStdio) wCloseFail).error = some "" := by
  refine ⟨rfl, rfl, rfl⟩

/-- Claim C5 amended — every outcome with serverStatus false has an error
entry present; its serverTools entry is absent unless the failure came from
the close step after tools were already captured, in which case the captured
tools remain recorded. -/
theorem unreachable_outcome_error_present (n : String) (cfg : Option ServerConfig)
    (w : ServerWorld) (h : (checkServer n cfg w).status = false) :
    (checkServer n cfg w).error.isSome ∧
    ((checkServer n cfg w).tools = none ∨ ∃ e, w.closeRes = .error e) := by
  unfold checkServer at h ⊢
  split at h
  · split at h
    · split at h
      · simp at h
      · refine ⟨rfl, Or.inr ?_⟩
        rename Except String Unit => cr
        rename w.closeRes = _ => hcl
        exact ⟨_, hcl⟩
    · split at h
      · simp at h
      · rename Except String Unit => cr
        rename w.closeRes = _ => hcl
        exact ⟨rfl, Or.inr ⟨_, hcl⟩⟩
  · exact ⟨rfl, Or.inl rfl⟩
  · exact ⟨rfl, Or.inl rfl⟩

/-- Claim C5 witness — the amended statement at a concrete input (an invalid
spec, so serverStatus is false). -/
theorem unreachable_outcome_error_present_witness :
    (checkServer "s" (some cfgEmpty) wGood).error.isSome ∧
    ((checkServer "s" (some cfgEmpty) wGood).tools = none ∨
      ∃ e, wGood.closeRes = .error e) :=
  unreachable_outcome_error_present "s" (some cfgEmpty) wGood rfl

/-- Claim C7 counterexample — a close failure after tools were captured does
change the recorded per-server outcome: the status recorded as true is
overwritten to false and the close error is recorded, contradicting the
claim that reachable stays true after a close failure. -/
theorem close_failure_flips_status :
    (checkServer "git" (some cfgStdio) wCloseBoom).status = false ∧
    (checkServer "git" (some cfgStdio) wCloseBoom).error = some "close boom" ∧
    (checkServer "git" (some cfgStdio) wCloseBoom).tools = some [("log", "d")] := by
  refine ⟨rfl, rfl, rfl⟩

/-- Claim C7 amended — `closeMCPClients` attempts a close for every client
and never fails; in the check unit a close failure still lets the already
captured tools stay recorded, but it overwrites the server's status to
false and its error entry with the close error. -/
theorem close_failure_never_escalates (rs : List (Except String Unit)) (n : String)
    (c : Option ServerConfig) (w : ServerWorld) (ts : ToolSet) (ce : String)
    (hcm : createMCPClient n c w = .ok (some { nextToolsCall := 1 }))
    (h1 : w.toolsRes 1 = .ok ts) (hcl : w.closeRes = .error ce) :
    closeMCPClients rs = .ok rs.length ∧
    checkServer n c w =
      { status := false, error := some ce, tools := some ts, created := 1, closed := 1 } := by
  constructor
  · simp [closeMCPClients]
  · obtain ⟨cl, hc⟩ := createMCPClient_ok_connect n c w _ hcm
    simp [checkServer, hcm, h1, hcl, createdClients, hc]

/-- Claim C7 witness — the amended statement at concrete inputs: two close
results (one failing), and a server whose close fails with "close boom". -/
theorem close_failure_never_escalates_witness :
    closeMCPClients [.error "x", .ok ()] = .ok 2 ∧
    checkServer "git" (some cfgStdio) wCloseBoom =
      { status := false, error := some "close boom", tools := some [("log", "d")],
        created := 1, closed := 1 } :=
  close_failure_never_escalates [.error "x", .ok ()] "git" (some cfgStdio) wCloseBoom
    [("log", "d")] "close boom" rfl rfl rfl

/-- Claim C8 — a spec selecting the event-stream kind without a URL, or the
subprocess kind without a command, makes client creation fail with the
respective invalid-configuration message; the result does not depend on the
external world (no connection is attempted, no client is created), and the
failure is surfaced only as that server's outcome error entry. -/
theorem invalid_spec_rejected_before_connect (n : String) (c : ServerConfig)
    (w w2 : ServerWorld)
    (h : (isSSE c && !truthyStr c.url) = true ∨ (!isSSE c && !truthyStr c.command) = true) :
    createMCPClient n (some c) w =
      .error (if isSSE c then "Missing URL for SSE server \"" ++ n ++ "\""
              else "Missing command for stdio server \"" ++ n ++ "\"") ∧
    createMCPClient n (some c) w = createMCPClient n (some c) w2 ∧
    checkServer n (some c) w =
      { status := false,
        error := some (if isSSE c then "Missing URL for SSE server \"" ++ n ++ "\""
                       else "Missing command for stdio server \"" ++ n ++ "\""),
        tools := none, created := 0, closed := 0 } := by
  have key : ∀ w3 : ServerWorld, connectClient n (some c) w3 =
      .error (if isSSE c then "Missing URL for SSE server \"" ++ n ++ "\""
              else "Missing command for stdio server \"" ++ n ++ "\"") := by
    intro w3
    rcases h with h | h
    · have hs : isSSE c = true := (Bool.and_eq_true _ _ |>.mp h).1
      have hurl : truthyStr c.url = false := by
        have h2 := (Bool.and_eq_true _ _ |>.mp h).2
        simpa using h2
      simp [connectClient, hs, hurl]
    · have hs : isSSE c = false := by
        have h2 := (Bool.and_eq_true _ _ |>.mp h).1
        simpa using h2
      have hcmd : truthyStr c.command = false := by
        have h2 := (Bool.and_eq_true _ _ |>.mp h).2
        simpa using h2
      simp [connectClient, hs, hcmd]
  have hcm : ∀ w3 : ServerWorld, createMCPClient n (some c) w3 =
      .error (if isSSE c then "Missing URL for SSE server \"" ++ n ++ "\""
              else "Missing command for stdio server \"" ++ n ++ "\"") := by
    intro w3
    simp [createMCPClient, key w3]
  refine ⟨hcm w, (hcm w).trans (hcm w2).symm, ?_⟩
  simp [checkServer, hcm w, createdClients, key w]

/-- Claim C8 witness — the rejection at concrete invalid specs: an sse spec
without a URL and an empty spec, under a world that would accept any
connection. -/
theorem invalid_spec_rejected_before_connect_witness :
    createMCPClient "s" (some { type := some "sse" }) wGood =
      .error (if isSSE { type := some "sse" } then "Missing URL for SSE server \"" ++ "s" ++ "\""
              else "Missing command for stdio server \"" ++ "s" ++ "\"") ∧
    createMCPClient "s" (some { type := some "sse" }) wGood =
      createMCPClient "s" (some { type := some "sse" }) wProbeFail ∧
    checkServer "s" (some { type := some "sse" }) wGood =
      { status := false,
        error := some (if isSSE { type := some "sse" }
                       then "Missing URL for SSE server \"" ++ "s" ++ "\""
                       else "Missing command for stdio server \"" ++ "s" ++ "\""),
        tools := none, created := 0, closed := 0 } :=
  invalid_spec_rejected_before_connect "s" { type := some "sse" } wGood wProbeFail
    (Or.inl (by decide))

/-- Claim C9 — transport-kind selection: the event-stream kind is selected
exactly when type equals "sse" or when the command is absent/falsy and a url
is present; a spec with both command and url but type other than "sse" takes
the subprocess path (its connect failure is wrapped in the stdio message);
a spec with neither command nor url nor type "sse" is rejected as a stdio
spec missing its command. -/
theorem transport_kind_selection (n : String) (c : ServerConfig) (w : ServerWorld)
    (e : String) (hconn : w.connectRes = .error e) :
    (isSSE c = true ↔
      (c.type = some "sse" ∨ (truthyStr c.command = false ∧ truthyStr c.url = true))) ∧
    (truthyStr c.command = true → truthyStr c.url = true → c.type ≠ some "sse" →
      connectClient n (some c) w =
        .error ("Failed to start command \"" ++ c.command.getD "" ++ "\": " ++ e)) ∧
    (truthyStr c.command = false → truthyStr c.url = false → c.type ≠ some "sse" →
      connectClient n (some c) w =
        .error ("Missing command for stdio server \"" ++ n ++ "\"")) := by
  refine ⟨?_, ?_, ?_⟩
  · simp [isSSE, Bool.or_eq_true, Bool.and_eq_true, beq_iff_eq, Bool.not_eq_true']
  · intro hcmd hurl htype
    have hs : isSSE c = false := by
      simp [isSSE, hcmd, htype]
    simp [connectClient, hs, hcmd, hconn]
  · intro hcmd hurl htype
    have hs : isSSE c = false := by
      simp [isSSE, hcmd, hurl, htype]
    simp [connectClient, hs, hcmd]

/-- Claim C9 witness — the selection facts at a concrete configuration with
both command and url and no type, under a world whose connection fails. -/
theorem transport_kind_selection_witness :
    (isSSE { command := some "c", url := some "http://h" } = true ↔
      ({ command := some "c", url := some "http://h" } : ServerConfig).type = some "sse" ∨
        (truthyStr ({ command := some "c", url := some "http://h" } : ServerConfig).command
            = false ∧
          truthyStr ({ command := some "c", url := some "http://h" } : ServerConfig).url
            = true)) ∧
    (truthyStr ({ command := some "c", url := some "http://h" } : ServerConfig).command = true →
      truthyStr ({ command := some "c", url := some "http://h" } : ServerConfig).url = true →
      ({ command := some "c", url := some "http://h" } : ServerConfig).type ≠ some "sse" →
      connectClient "s" (some { command := some "c", url := some "http://h" })
          { connectRes := .error "refused", toolsRes := fun _ => .ok [], closeRes := .ok () } =
        .error ("Failed to start command \"" ++ "c" ++ "\": " ++ "refused")) ∧
    (truthyStr ({ command := some "c", url := some "http://h" } : ServerConfig).command = false →
      truthyStr ({ command := some "c", url := some "http://h" } : ServerConfig).url = false →
      ({ command := some "c", url := some "http://h" } : ServerConfig).type ≠ some "sse" →
      connectClient "s" (some { command := some "c", url := some "http://h" })
          { connectRes := .error "refused", toolsRes := fun _ => .ok [], closeRes := .ok () } =
        .error ("Missing command for stdio server \"" ++ "s" ++ "\"")) := by
  have h := transport_kind_selection "s" { command := some "c", url := some "http://h" }
    { connectRes := .error "refused", toolsRes := fun _ => .ok [], closeRes := .ok () }
    "refused" rfl
  exact h

end MCP
